import Mathlib

/-!
Verification of the logging-configuration subsystem of the LFN Audio Toolkit
(`LFN_Audio_Toolkit_Production/src/lfn_logging.py`).

The Python module is shallowly embedded: each Python function becomes a Lean
function over explicit state.  Environment variables are a record of optional
strings, the process-wide logger registry is an association list, filesystem
behaviour (path existence, directory creation) is a record of boolean oracles,
and fallible operations return `Except`.  Python `int` log levels are `Nat`
(the CPython `logging` constants 10/20/30/40/50).
-/

deriving instance DecidableEq for Except

namespace LFN

/-! ## Severity levels (the CPython `logging` module constants) -/

def NOTSET : Nat := 0
def DEBUG : Nat := 10
def INFO : Nat := 20
def WARNING : Nat := 30
def ERROR : Nat := 40
def CRITICAL : Nat := 50

/-- `DEFAULT_LOG_LEVEL = logging.INFO` (lfn_logging.py line 27). -/
def DEFAULT_LOG_LEVEL : Nat := INFO

/-- `DEFAULT_LOG_DIR = "logs"` (line 28). -/
def DEFAULT_LOG_DIR : String := "logs"

/-- `MAX_LOG_SIZE = 10 * 1024 * 1024` (line 29). -/
def MAX_LOG_SIZE : Nat := 10 * 1024 * 1024

/-- `BACKUP_COUNT = 5` (line 30). -/
def BACKUP_COUNT : Nat := 5

/-! ## Process environment and filesystem oracles -/

/-- The environment variables read by `lfn_logging.py`, plus `sys.platform`.
`none` models an unset variable. -/
structure Env where
  lfn_log_level : Option String
  lfn_debug : Option String
  lfn_log_dir : Option String
  lfn_log_file : Option String
  colorterm : Option String
  platform : String
deriving DecidableEq

/-- Python truthiness of `os.environ.get(...)`: `None` and the empty string
are falsy, every other string is truthy. -/
def truthyOpt : Option String → Bool
  | none => false
  | some s => s != ""

/-- Filesystem oracles: the resolved path of `lfn_logging.py` itself
(`Path(__file__).resolve()`), whether a path exists, and whether
`Path(d).mkdir(parents=True, exist_ok=True)` succeeds for a directory `d`. -/
structure Fs where
  filePath : String
  pathExists : String → Bool
  mkdirOk : String → Bool

/-! ## Path arithmetic (POSIX `pathlib`)

`PurePosixPath` normalizes a path at construction: it splits on slashes,
drops empty segments and `.` segments (keeping `..`), and keeps the root,
where a path beginning with exactly two slashes has the root `//` and any
other leading run of slashes has the root `/`.  The slash operator parses
its right operand; an absolute right operand replaces the whole left one,
otherwise the parsed components of the right operand are appended to those
of the left and the root of the left is kept. -/

/-- Split a character list at every '/'. -/
def splitSlashAux : List Char → List Char → List (List Char)
  | [], acc => [acc.reverse]
  | '/' :: rest, acc => acc.reverse :: splitSlashAux rest []
  | c :: rest, acc => splitSlashAux rest (c :: acc)

/-- `PurePosixPath` keeps a segment iff it is neither empty nor `.`. -/
def keepComp (c : List Char) : Bool :=
  !c.isEmpty && decide (c ≠ ['.'])

/-- The root of a POSIX path: `//` for exactly two leading slashes, `/` for
one or three-and-more, empty for a relative path. -/
def posixRoot : List Char → List Char
  | '/' :: '/' :: '/' :: _ => ['/']
  | '/' :: '/' :: _ => ['/', '/']
  | '/' :: _ => ['/']
  | _ => []

/-- The normalized component list of a POSIX path. -/
def posixComps (l : List Char) : List (List Char) :=
  (splitSlashAux l []).filter keepComp

/-- Join components with '/' (the str() of a `PurePosixPath` body). -/
def renderComps : List (List Char) → List Char
  | [] => []
  | c :: rest =>
    match rest with
    | [] => c
    | _ :: _ => c ++ '/' :: renderComps rest

/-- str() of a `PurePosixPath` from root and components; the empty path
renders as ".". -/
def renderPosix (root : List Char) (comps : List (List Char)) : String :=
  match root, comps with
  | [], [] => "."
  | _, _ => String.mk (root ++ renderComps comps)

/-- Parse-and-render a POSIX path, as `PurePosixPath` does at
construction. -/
def posixNormalize (s : String) : String :=
  renderPosix (posixRoot s.data) (posixComps s.data)

/-- The `pathlib` slash operator: an absolute right operand replaces the
left one; otherwise the parsed components of the right operand are appended
to those of the left operand under the root of the left operand.  Either
way the result is the normalized rendering. -/
def pathJoin (a b : String) : String :=
  if b.data.head? = some '/' then posixNormalize b
  else renderPosix (posixRoot a.data) (posixComps a.data ++ posixComps b.data)

/-- The `pathlib` `.parent` method: drop the last component; the parent of a
root or of a single-component relative path follows `PurePosixPath`
("/" resp. "."). -/
def parentDir (p : String) : String :=
  let isAbs := p.data.head? = some '/'
  let parts := (splitSlashAux p.data []).filter keepComp
  match parts with
  | [] => if isAbs then "/" else "."
  | [_] => if isAbs then "/" else "."
  | _ :: _ :: _ =>
    String.mk ((if isAbs then ['/'] else []) ++ List.intercalate ['/'] parts.dropLast)

/-! ## Python string helpers -/

/-- Python `module_name.replace('.', '_')` (line 147): every dot becomes an
underscore. -/
def replaceDots (l : List Char) : List Char :=
  l.map (fun c => if c = '.' then '_' else c)

/-- `safe_module = module_name.replace('.', '_')` as a `String`. -/
def safeModule (m : String) : String :=
  String.mk (replaceDots m.data)

/-- Python `log_filename.replace` applied with `.log` and `_error.log`
(line 164): every
(non-overlapping, leftmost-first) occurrence of the substring ".log" is
replaced by "_error.log". -/
def replaceDotLog : List Char → List Char
  | [] => []
  | '.' :: 'l' :: 'o' :: 'g' :: rest =>
    '_' :: 'e' :: 'r' :: 'r' :: 'o' :: 'r' :: '.' :: 'l' :: 'o' :: 'g' :: replaceDotLog rest
  | c :: rest => c :: replaceDotLog rest

/-- String-level wrapper for `replaceDotLog`. -/
def strReplaceDotLog (s : String) : String :=
  String.mk (replaceDotLog s.data)

/-- Python `pat in s` substring test for lists of characters. -/
def listContains (pat : List Char) : List Char → Bool
  | [] => pat.isEmpty
  | c :: rest => pat.isPrefixOf (c :: rest) || listContains pat rest

/-- Python `pat in s` on strings (used by the naming heuristic of `get_logger`). -/
def strContainsSub (s pat : String) : Bool :=
  listContains pat.data s.data

/-- ASCII uppercasing of one character (the fragment of Python `str.upper()`
relevant to the severity names). -/
def charUp (c : Char) : Char :=
  if 97 ≤ c.toNat ∧ c.toNat ≤ 122 then Char.ofNat (c.toNat - 32) else c

/-- Python `level_name.upper()` restricted to ASCII. -/
def strToUpper (s : String) : String := String.mk (s.data.map charUp)

/-! ## Loggers, handlers, registry -/

/-- The stream a handler writes to: `StreamHandler(sys.stdout)` or a
`RotatingFileHandler` on a path. -/
inductive Dest where
  | console : Dest
  | file : String → Dest
deriving DecidableEq

/-- Which formatter a handler carries: the `ColoredFormatter` built with the
short console format string (line 129), or the plain `logging.Formatter`
built with the detailed format string (line 124). -/
inductive FormatterKind where
  | colored : FormatterKind
  | detailed : FormatterKind
deriving DecidableEq

/-- One attached handler: destination, its `setLevel` threshold, and its
formatter.  (Both file handlers are `RotatingFileHandler`s with
`maxBytes = MAX_LOG_SIZE` and `backupCount = BACKUP_COUNT`; these two
parameters are constants of the module and rotation itself is out of scope
of the claims, so they are not repeated per handler.) -/
structure Handler where
  dest : Dest
  level : Nat
  fmt : FormatterKind
deriving DecidableEq

/-- The observable state of a `logging.Logger`: its name, its `setLevel`
threshold and its `handlers` list. -/
structure Logger where
  name : String
  level : Nat
  handlers : List Handler
deriving DecidableEq

/-- The process-wide logger registry (the manager dict of `logging.getLogger`),
keyed by module name. -/
abbrev Registry := List (String × Logger)

/-- `logging.getLogger(m)`: return the cached logger for `m` or a fresh one
(level `NOTSET`, no handlers).  CPython guarantees that the `.name`
of the cached logger equals its key. -/
def getPyLogger (reg : Registry) (m : String) : Logger :=
  match List.lookup m reg with
  | some lg => { lg with name := m }
  | none => ⟨m, NOTSET, []⟩

/-- Store the (mutated-in-place) logger back under its key. -/
def setReg : Registry → String → Logger → Registry
  | [], m, lg => [(m, lg)]
  | (k, v) :: rest, m, lg =>
    if k = m then (k, lg) :: rest else (k, v) :: setReg rest m lg

/-! ## Level resolution -/

/-- The `level_map` dict of `get_log_level_from_env` (lines 58-64). -/
def level_map : List (String × Nat) :=
  [("DEBUG", DEBUG), ("INFO", INFO), ("WARNING", WARNING),
   ("ERROR", ERROR), ("CRITICAL", CRITICAL)]

/-- `get_log_level_from_env` (lines 55-65): read `LFN_LOG_LEVEL`, uppercase
it, look it up in `level_map`, default `DEFAULT_LOG_LEVEL`. -/
def get_log_level_from_env (env : Env) : Nat :=
  let level_name := strToUpper (env.lfn_log_level.getD "")
  (List.lookup level_name level_map).getD DEFAULT_LOG_LEVEL

/-! ## setup_logging -/

/-- The `log_to_file` argument of `setup_logging`: Python `None`, a boolean,
or a filename string. -/
inductive LogToFile where
  | none : LogToFile
  | bool : Bool → LogToFile
  | str : String → LogToFile
deriving DecidableEq

/-- Python truthiness of the `log_to_file` argument (`if log_to_file:` on
line 141): `None` and `False` and `""` are falsy. -/
def LogToFile.truthy : LogToFile → Bool
  | .none => false
  | .bool b => b
  | .str s => s != ""

/-- The message of the `OSError` that `Path.mkdir` raises when the log
directory cannot be created (propagated uncaught by `setup_logging`). -/
def mkdirError : String := "OSError: cannot create log directory"

/-- Log-directory resolution of `setup_logging` (lines 100-118): explicit
argument, else a truthy `LFN_LOG_DIR`, else walk up to three parent levels
from the directory of this file looking for `preflight_check.py` or `setup.py`,
else fall back to `Path(__file__).parent.parent / DEFAULT_LOG_DIR`. -/
def resolveLogDir (env : Env) (fs : Fs) (log_dir : Option String) : String :=
  match log_dir with
  | some d => d
  | none =>
    if truthyOpt env.lfn_log_dir then env.lfn_log_dir.getD ""
    else
      let hasMarker := fun (c : String) =>
        fs.pathExists (pathJoin c "preflight_check.py") ||
          fs.pathExists (pathJoin c "setup.py")
      let c0 := parentDir fs.filePath
      let c1 := parentDir c0
      let c2 := parentDir c1
      if hasMarker c0 then pathJoin c0 DEFAULT_LOG_DIR
      else if hasMarker c1 then pathJoin c1 DEFAULT_LOG_DIR
      else if hasMarker c2 then pathJoin c2 DEFAULT_LOG_DIR
      else pathJoin (parentDir (parentDir fs.filePath)) DEFAULT_LOG_DIR

/-- `setup_logging` (lines 68-181).  Returns the configured logger (or the
propagated `mkdir` failure) together with the updated registry; note that on
a `mkdir` failure the registry already holds the re-leveled, handler-cleared
logger, exactly as in CPython where the logger object was mutated in place
before the exception was raised. -/
def setup_logging (reg : Registry) (env : Env) (fs : Fs) (module_name : String)
    (log_to_file : LogToFile) (log_to_console : Bool)
    (log_level : Option Nat) (log_dir : Option String) :
    Except String Logger × Registry :=
  let level := match log_level with
    | some l => l
    | Option.none => get_log_level_from_env env
  let logger0 := getPyLogger reg module_name
  let logger1 := { logger0 with level := level, handlers := ([] : List Handler) }
  let dir := resolveLogDir env fs log_dir
  if fs.mkdirOk dir then
    let consoleHandlers : List Handler :=
      if log_to_console then [⟨Dest.console, level, FormatterKind.colored⟩] else []
    let fileHandlers : List Handler :=
      if log_to_file.truthy then
        let log_filename := match log_to_file with
          | .str s => s
          | _ => "lfn_" ++ safeModule module_name ++ ".log"
        [⟨Dest.file (pathJoin dir log_filename), level, FormatterKind.detailed⟩,
         ⟨Dest.file (pathJoin dir (strReplaceDotLog log_filename)), ERROR,
          FormatterKind.detailed⟩]
      else []
    let logger2 := { logger1 with handlers := consoleHandlers ++ fileHandlers }
    let logger3 :=
      if env.lfn_debug = some "1" then
        { logger2 with level := DEBUG,
                       handlers := logger2.handlers.map (fun h => { h with level := DEBUG }) }
      else logger2
    (Except.ok logger3, setReg reg module_name logger3)
  else
    (Except.error mkdirError, setReg reg module_name logger1)

/-! ## get_logger -/

/-- The keyword arguments `get_logger` forwards to `setup_logging`;
`log_to_file = Option.none` models the key being absent from `kwargs`. -/
structure GLOpts where
  log_to_file : Option LogToFile
  log_to_console : Bool
  log_level : Option Nat
  log_dir : Option String

/-- The naming heuristic of `get_logger` (lines 204-206): file logging is
enabled by default when the module name contains one of the four fragments. -/
def defaultByName (m : String) : LogToFile :=
  if ["batch", "realtime", "recorder", "health"].any (fun n => strContainsSub m n) then
    LogToFile.bool true
  else LogToFile.none

/-- `get_logger` (lines 184-208): fill in `log_to_file` from `LFN_LOG_FILE`
(when truthy) or the naming heuristic when the caller did not pass it, then
delegate to `setup_logging`. -/
def get_logger (reg : Registry) (env : Env) (fs : Fs) (module_name : String)
    (o : GLOpts) : Except String Logger × Registry :=
  let ltf : LogToFile :=
    match o.log_to_file with
    | some v => v
    | Option.none =>
      if truthyOpt env.lfn_log_file then LogToFile.str (env.lfn_log_file.getD "")
      else defaultByName module_name
  setup_logging reg env fs module_name ltf o.log_to_console o.log_level o.log_dir

/-! ## Records, formatters and record emission

Emission follows the CPython `logging` pipeline for a logger with attached
handlers: `logger.log(S, msg)` first checks `S >= logger.level`
(`isEnabledFor`; `setup_logging` always sets a nonzero level, so the
effective level is the own level of the logger), then `callHandlers` visits the
`handlers` list of the logger in attachment order, and each handler whose `level` is
`<= S` formats and emits the record.  Crucially, the *same* record object is
passed to every handler, so a formatter that mutates the record (as
`ColoredFormatter.format` does with `record.levelname`, lines 46-52) affects
every later handler.  The mutation is modelled by threading the record
through the handler list.  (Propagation to ancestor loggers, which have no
handlers in this code base, is not modelled.) -/

/-- One `logging.LogRecord`, restricted to the fields the two format strings
mention. -/
structure LogRecord where
  levelno : Nat
  levelname : String
  name : String
  msg : String
  asctime : String
  funcName : String
  lineno : Nat
deriving DecidableEq

/-- `logging.getLevelName` for the standard levels. -/
def levelNameOf (n : Nat) : String :=
  if n = DEBUG then "DEBUG"
  else if n = INFO then "INFO"
  else if n = WARNING then "WARNING"
  else if n = ERROR then "ERROR"
  else if n = CRITICAL then "CRITICAL"
  else "Level " ++ toString n

/-- Build the record for `logger.log(S, msg)` from module `nm`. -/
def mkRecord (S : Nat) (nm msg : String) : LogRecord :=
  ⟨S, levelNameOf S, nm, msg, "2025-01-01 00:00:00", "f", 1⟩

/-- The `COLORS` dict (lines 33-40), ANSI escape codes keyed by level name. -/
def COLORS : List (String × String) :=
  [("DEBUG", "\x1b[36m"), ("INFO", "\x1b[32m"), ("WARNING", "\x1b[33m"),
   ("ERROR", "\x1b[31m"), ("CRITICAL", "\x1b[35m"), ("RESET", "\x1b[0m")]

/-- The console format string `[%(levelname)s] %(name)s - %(message)s`. -/
def consoleFormat (r : LogRecord) : String :=
  "[" ++ r.levelname ++ "] " ++ r.name ++ " - " ++ r.msg

/-- The detailed (file) format string
`%(asctime)s [%(levelname)s] %(name)s.%(funcName)s:%(lineno)d - %(message)s`. -/
def detailedFormat (r : LogRecord) : String :=
  r.asctime ++ " [" ++ r.levelname ++ "] " ++ r.name ++ "." ++ r.funcName ++ ":"
    ++ toString r.lineno ++ " - " ++ r.msg

/-- `ColoredFormatter.format` (lines 46-52): when the platform is not
`win32` or `COLORTERM` is truthy, and the level name of the record is a key of
`COLORS`, the level name is wrapped in the color code *by mutating the
record*, and the (mutated) record is then formatted.  Returns the formatted
line together with the record as left behind by the mutation. -/
def coloredFormat (env : Env) (r : LogRecord) : String × LogRecord :=
  if env.platform != "win32" || truthyOpt env.colorterm then
    match List.lookup r.levelname COLORS with
    | some code =>
      let r2 := { r with levelname := code ++ r.levelname ++ "\x1b[0m" }
      (consoleFormat r2, r2)
    | Option.none => (consoleFormat r, r)
  else (consoleFormat r, r)

/-- Format a record with the formatter of a handler; the plain `logging.Formatter`
does not mutate the record. -/
def Handler.runFormat (env : Env) (h : Handler) (r : LogRecord) : String × LogRecord :=
  match h.fmt with
  | FormatterKind.colored => coloredFormat env r
  | FormatterKind.detailed => (detailedFormat r, r)

/-- `Logger.callHandlers`: visit the handlers in order; a handler emits iff
`h.level <= r.levelno`; the record (possibly mutated by a formatter) is
passed on to the next handler.  The result has one entry per handler:
`some (dest, line)` if that handler emitted, `none` if it filtered the
record out. -/
def callHandlers (env : Env) : List Handler → LogRecord →
    List (Option (Dest × String)) × LogRecord
  | [], r => ([], r)
  | h :: rest, r =>
    if h.level ≤ r.levelno then
      let fr := h.runFormat env r
      let tail := callHandlers env rest fr.2
      (some (h.dest, fr.1) :: tail.1, tail.2)
    else
      let tail := callHandlers env rest r
      (Option.none :: tail.1, tail.2)

/-- `logger.log(r.levelno, ...)`: the logger-level gate followed by
`callHandlers`.  One entry per attached handler. -/
def Logger.handle (env : Env) (lg : Logger) (r : LogRecord) :
    List (Option (Dest × String)) :=
  if lg.level ≤ r.levelno then (callHandlers env lg.handlers r).1
  else lg.handlers.map (fun _ => Option.none)

/-- The lines a given destination received, in order. -/
def outputsTo (outs : List (Option (Dest × String))) (d : Dest) : List String :=
  outs.filterMap (fun o => match o with
    | some (d2, s) => if d2 = d then some s else Option.none
    | Option.none => Option.none)

/-! ## log_function_call -/

/-- A Python exception value: its type name and message. -/
structure PyExc where
  typeName : String
  msg : String
deriving DecidableEq

/-- `log_function_call` (lines 262-292), applied to one wrapped call.  The
wrapped operation is `func`, `reprSig` is the rendered
`", ".join(args_repr + kwargs_repr)` signature and `reprRes` is `repr` of a
result.  Returns the result of the wrapper (identical `Except` to the wrapped
call) together with the list of logging calls the wrapper made, in order:
the pre-call line at `level`, then either the return line at `level` or the
`logger.exception(...)` line, which CPython logs at `ERROR`. -/
def log_function_call {α β : Type} (level : Nat) (funcName : String)
    (reprSig : α → String) (reprRes : β → String)
    (func : α → Except PyExc β) (arg : α) :
    Except PyExc β × List (Nat × String) :=
  let callLine := (level, "Calling " ++ funcName ++ "(" ++ reprSig arg ++ ")")
  match func arg with
  | Except.ok r =>
    (Except.ok r, [callLine, (level, funcName ++ " returned " ++ reprRes r)])
  | Except.error e =>
    (Except.error e,
     [callLine, (ERROR, funcName ++ " raised " ++ e.typeName ++ ": " ++ e.msg)])

/-! ## create_session_log -/

/-- A `datetime.now()` value down to microseconds (strftime with
`%Y%m%d_%H%M%S` only renders down to seconds). -/
structure PyDateTime where
  year : Nat
  month : Nat
  day : Nat
  hour : Nat
  minute : Nat
  second : Nat
  microsecond : Nat
deriving DecidableEq

/-- One decimal digit character. -/
def digitChar (d : Nat) : Char := Char.ofNat (48 + d)

/-- Decimal digits of a natural number, most significant first; fuel-based
so that it evaluates inside the kernel. -/
def natDecAux : Nat → Nat → List Char
  | 0, _ => []
  | fuel + 1, n =>
    if n < 10 then [digitChar n]
    else natDecAux fuel (n / 10) ++ [digitChar (n % 10)]

/-- Decimal rendering of a natural number (the %d of strftime). -/
def natDec (n : Nat) : String := String.mk (natDecAux (n + 1) n)

/-- Zero-pad to two digits (`%m`, `%d`, `%H`, `%M`, `%S`). -/
def pad2 (n : Nat) : String := if n < 10 then "0" ++ natDec n else natDec n

/-- Zero-pad to four digits (`%Y`). -/
def pad4 (n : Nat) : String :=
  if n < 10 then "000" ++ natDec n
  else if n < 100 then "00" ++ natDec n
  else if n < 1000 then "0" ++ natDec n
  else natDec n

/-- The timestamp `datetime.now().strftime` renders with `%Y%m%d_%H%M%S`
(line 314). -/
def strftime_ts (t : PyDateTime) : String :=
  pad4 t.year ++ pad2 t.month ++ pad2 t.day ++ "_"
    ++ pad2 t.hour ++ pad2 t.minute ++ pad2 t.second

/-- Two clock readings fall in the same wall-clock second. -/
def sameSecond (t1 t2 : PyDateTime) : Bool :=
  t1.year == t2.year && t1.month == t2.month && t1.day == t2.day &&
    t1.hour == t2.hour && t1.minute == t2.minute && t1.second == t2.second

/-- The filesystem side effects `create_session_log` could perform.  The
vocabulary deliberately includes file creation/opening so that its absence
in the effect trace of the function is meaningful. -/
inductive FsEffect where
  | mkdirP : String → FsEffect
  | createFile : String → FsEffect
  | openFile : String → FsEffect
deriving DecidableEq

/-- Is an effect a (parents, exist_ok) directory creation? -/
def FsEffect.isMkdir : FsEffect → Bool
  | .mkdirP _ => true
  | _ => false

/-- The directory `create_session_log` resolves (lines 306-310): the
explicit argument, else `Path(__file__).parent.parent / DEFAULT_LOG_DIR`. -/
def sessionDir (fs : Fs) (log_dir : Option String) : String :=
  match log_dir with
  | some d => d
  | Option.none => pathJoin (parentDir (parentDir fs.filePath)) DEFAULT_LOG_DIR

/-- `create_session_log` (lines 295-318): resolve the directory, `mkdir` it
(uncaught on failure), and return the path
`log_dir / f"{session_name}_{timestamp}.log"` together with the effect
trace.  The file itself is neither created nor opened. -/
def create_session_log (fs : Fs) (now : PyDateTime) (session_name : String)
    (log_dir : Option String) : Except String (List FsEffect × String) :=
  if fs.mkdirOk (sessionDir fs log_dir) then
    Except.ok ([FsEffect.mkdirP (sessionDir fs log_dir)],
      pathJoin (sessionDir fs log_dir)
        (session_name ++ "_" ++ strftime_ts now ++ ".log"))
  else Except.error mkdirError

/-! ## Spec-side level resolution (for the refinement claim C3)

`resolve_level_spec` is written from the words of the specification (section 4.1
"Level Resolver"), *not* from the code: (a) debug override wins; (b) else an
explicit level; (c) else the environment variable by case-insensitive
severity name; (d) else the INFO default, silently also for unrecognized
values. -/
def resolve_level_spec (debug_override : Bool) (explicit : Option Nat)
    (env_value : Option String) : Nat :=
  if debug_override then DEBUG
  else match explicit with
  | some l => l
  | Option.none =>
    match env_value with
    | Option.none => DEFAULT_LOG_LEVEL
    | some s =>
      let u := strToUpper s
      if u = "DEBUG" then DEBUG
      else if u = "INFO" then INFO
      else if u = "WARNING" then WARNING
      else if u = "ERROR" then ERROR
      else if u = "CRITICAL" then CRITICAL
      else DEFAULT_LOG_LEVEL

/-! ## Handler counting (for the sink-set invariant C2) -/

/-- Is a handler a console sink? -/
def isConsoleH (h : Handler) : Bool :=
  match h.dest with
  | Dest.console => true
  | Dest.file _ => false

/-- Is a handler a file sink? -/
def isFileH (h : Handler) : Bool :=
  match h.dest with
  | Dest.console => false
  | Dest.file _ => true

/-- Number of console sinks attached. -/
def consoleCount (hs : List Handler) : Nat := (hs.filter isConsoleH).length

/-- Number of file sinks attached. -/
def fileCount (hs : List Handler) : Nat := (hs.filter isFileH).length

/-! ## Derived closed forms (proved below to characterize `setup_logging`) -/

/-- The level `setup_logging` resolves before the debug override: the
explicit argument, else the environment. -/
def resolvedLevel (env : Env) (ll : Option Nat) : Nat :=
  match ll with
  | some l => l
  | Option.none => get_log_level_from_env env

/-- The handler list `setup_logging` attaches (before the debug override):
an optional console handler followed by the optional general/errors-only
file handler pair. -/
def plannedHandlers (dir : String) (m : String) (ltf : LogToFile) (ltc : Bool)
    (level : Nat) : List Handler :=
  (if ltc then [⟨Dest.console, level, FormatterKind.colored⟩] else []) ++
  (if ltf.truthy then
      let log_filename := match ltf with
        | .str s => s
        | _ => "lfn_" ++ safeModule m ++ ".log"
      [⟨Dest.file (pathJoin dir log_filename), level, FormatterKind.detailed⟩,
       ⟨Dest.file (pathJoin dir (strReplaceDotLog log_filename)), ERROR,
        FormatterKind.detailed⟩]
    else [])

/-- The logger `setup_logging` returns on success (characterized by
`setup_logging_fst` below). -/
def plannedLogger (env : Env) (fs : Fs) (m : String) (ltf : LogToFile)
    (ltc : Bool) (ll : Option Nat) (ld : Option String) : Logger :=
  let level := resolvedLevel env ll
  let dir := resolveLogDir env fs ld
  let hs := plannedHandlers dir m ltf ltc level
  if env.lfn_debug = some "1" then
    ⟨m, DEBUG, hs.map (fun h => { h with level := DEBUG })⟩
  else ⟨m, level, hs⟩

/-! ## Concrete option records and loggers for witnesses -/

/-- First-call options of the C2 witness: file logging to "app.log". -/
def o1w : GLOpts := ⟨some (LogToFile.str "app.log"), true, some INFO, some "/d"⟩

/-- Second-call options of the C2 witness: console only, level WARNING. -/
def o2w : GLOpts := ⟨some LogToFile.none, true, some WARNING, some "/d"⟩

/-- The logger the second C2 call yields. -/
def c2lg : Logger := ⟨"m", WARNING, [⟨Dest.console, WARNING, FormatterKind.colored⟩]⟩

/-- The logger of the C3 witness (level from LFN_LOG_LEVEL=warning). -/
def c3lg : Logger := ⟨"m", WARNING, [⟨Dest.console, WARNING, FormatterKind.colored⟩]⟩

/-- The logger of the C4 witness (threshold INFO, file sinks on app.log). -/
def c4lg : Logger :=
  ⟨"m", INFO,
   [⟨Dest.file "/d/app.log", INFO, FormatterKind.detailed⟩,
    ⟨Dest.file "/d/app_error.log", ERROR, FormatterKind.detailed⟩]⟩

/-- The fully-DEBUG logger produced under LFN_DEBUG=1 (C10 witness). -/
def c10lg : Logger :=
  ⟨"m", DEBUG,
   [⟨Dest.console, DEBUG, FormatterKind.colored⟩,
    ⟨Dest.file "/d/app.log", DEBUG, FormatterKind.detailed⟩,
    ⟨Dest.file "/d/app_error.log", DEBUG, FormatterKind.detailed⟩]⟩

/-- A wrapped operation that always fails (C8 witness). -/
def c8func : Nat → Except PyExc Nat := fun _ => Except.error ⟨"ValueError", "bad"⟩

/-- The logger of the C7 witness for the caller-supplied name "audit.txt";
note the general and errors-only paths coincide. -/
def c7lgS : Logger :=
  ⟨"m", INFO,
   [⟨Dest.file "/d/audit.txt", INFO, FormatterKind.detailed⟩,
    ⟨Dest.file "/d/audit.txt", ERROR, FormatterKind.detailed⟩]⟩

/-- The logger of the C7 witness for the auto-generated name of module "m". -/
def c7lgA : Logger :=
  ⟨"m", INFO,
   [⟨Dest.file "/d/lfn_m.log", INFO, FormatterKind.detailed⟩,
    ⟨Dest.file "/d/lfn_m_error.log", ERROR, FormatterKind.detailed⟩]⟩

/-! ## Concrete inputs used by the witnesses and counterexamples -/

/-- A plain POSIX environment: nothing set, not Windows. -/
def env0 : Env := ⟨Option.none, Option.none, Option.none, Option.none, Option.none, "linux"⟩

/-- The environment with the debug override asserted. -/
def envDbg : Env :=
  ⟨Option.none, some "1", Option.none, Option.none, Option.none, "linux"⟩

/-- The environment with LFN_LOG_LEVEL set to a lowercase name. -/
def envLvl : Env :=
  ⟨some "warning", Option.none, Option.none, Option.none, Option.none, "linux"⟩

/-- A filesystem on which every `mkdir` succeeds and no marker file exists. -/
def fsOk : Fs := ⟨"/proj/src/lfn_logging.py", fun _ => false, fun _ => true⟩

/-- A filesystem on which every `mkdir` fails. -/
def fsBad : Fs := ⟨"/proj/src/lfn_logging.py", fun _ => false, fun _ => false⟩

/-- A fixed clock reading. -/
def t0 : PyDateTime := ⟨2025, 1, 2, 3, 4, 5, 0⟩

/-- The same second as `t0`, a few hundred milliseconds later. -/
def t0b : PyDateTime := ⟨2025, 1, 2, 3, 4, 5, 400000⟩

/-- The logger `setup_logging` produces for module "m" with file name
"app.log", console on, explicit level INFO, directory "/d", plain
environment (used by the C1 witness). -/
def c1lg : Logger :=
  ⟨"m", INFO,
   [⟨Dest.console, INFO, FormatterKind.colored⟩,
    ⟨Dest.file "/d/app.log", INFO, FormatterKind.detailed⟩,
    ⟨Dest.file "/d/app_error.log", ERROR, FormatterKind.detailed⟩]⟩

/-! # Theorems -/

/-- `logging.getLogger(m)` always hands back a logger named `m`. -/
theorem getPyLogger_name (reg : Registry) (m : String) :
    (getPyLogger reg m).name = m := by
  unfold getPyLogger
  cases List.lookup m reg <;> rfl

/-- Closed form of the value returned by `setup_logging`: independent of the
prior registry contents, it is the `plannedLogger` on success and the
propagated `mkdir` failure otherwise. -/
theorem setup_logging_fst (reg : Registry) (env : Env) (fs : Fs) (m : String)
    (ltf : LogToFile) (ltc : Bool) (ll : Option Nat) (ld : Option String) :
    (setup_logging reg env fs m ltf ltc ll ld).1 =
      (if fs.mkdirOk (resolveLogDir env fs ld) = true then
        Except.ok (plannedLogger env fs m ltf ltc ll ld)
      else Except.error mkdirError) := by
  unfold setup_logging plannedLogger plannedHandlers resolvedLevel getPyLogger
  by_cases hmk : fs.mkdirOk (resolveLogDir env fs ld) = true
  · simp only [hmk, if_true]
    cases List.lookup m reg <;> rfl
  · simp only [hmk, if_false]
    rfl

/-- Formatting never changes the numeric severity of the record (only
`levelname` is mutated by `ColoredFormatter`). -/
theorem runFormat_levelno (env : Env) (h : Handler) (r : LogRecord) :
    (Handler.runFormat env h r).2.levelno = r.levelno := by
  cases h with
  | mk d lvl f =>
    cases f with
    | colored =>
      simp only [Handler.runFormat, coloredFormat]
      by_cases hc : (env.platform != "win32" || truthyOpt env.colorterm) = true
      · rw [if_pos hc]
        cases List.lookup r.levelname COLORS <;> rfl
      · rw [if_neg hc]
    | detailed => rfl

/-- `callHandlers` produces one entry per handler, and the `i`-th handler
emits iff its threshold is at most the severity of the record — independently of
the record mutation performed by earlier formatters. -/
theorem callHandlers_get? (env : Env) (hs : List Handler) (r : LogRecord)
    (i : Nat) (h : Handler) (hi : hs[i]? = some h) :
    ∃ o, (callHandlers env hs r).1[i]? = some o ∧
      o.isSome = decide (h.level ≤ r.levelno) := by
  induction hs generalizing r i with
  | nil => simp at hi
  | cons hd tl ih =>
    cases i with
    | zero =>
      simp only [List.getElem?_cons_zero, Option.some.injEq] at hi
      subst hi
      by_cases hl : hd.level ≤ r.levelno
      · exact ⟨some (hd.dest, (Handler.runFormat env hd r).1), by simp [callHandlers, hl]⟩
      · exact ⟨Option.none, by simp [callHandlers, hl]⟩
    | succ n =>
      simp only [List.getElem?_cons_succ] at hi
      by_cases hl : hd.level ≤ r.levelno
      · obtain ⟨o, ho, hs⟩ := ih ((Handler.runFormat env hd r).2) n hi
        refine ⟨o, ?_, ?_⟩
        · simpa [callHandlers, hl] using ho
        · rw [hs, runFormat_levelno]
      · obtain ⟨o, ho, hs⟩ := ih r n hi
        exact ⟨o, by simpa [callHandlers, hl] using ho, hs⟩

/-- The full emission pipeline: the `i`-th handler of any logger emits a
record iff the severity of the record passes both thresholds, the one of the
logger and the one of that handler. -/
theorem handle_get? (env : Env) (lg : Logger) (r : LogRecord) (i : Nat)
    (h : Handler) (hi : lg.handlers[i]? = some h) :
    ∃ o, (Logger.handle env lg r)[i]? = some o ∧
      o.isSome = (decide (lg.level ≤ r.levelno) && decide (h.level ≤ r.levelno)) := by
  unfold Logger.handle
  by_cases hl : lg.level ≤ r.levelno
  · simpa [hl] using callHandlers_get? env lg.handlers r i h hi
  · have hlt : i < lg.handlers.length := by
      by_contra hge
      rw [List.getElem?_eq_none (Nat.le_of_not_lt hge)] at hi
      exact Option.noConfusion hi
    exact ⟨Option.none, by simp [hl, List.getElem?_replicate, hlt]⟩

/-- C1: for every severity S of a record and every configured sink of a
logger produced by `setup_logging`, the sink emits the record iff
S ≥ the minimum severity of the sink and S ≥ the resolved threshold of the
logger,
exhaustively over the five-level order DEBUG < INFO < WARNING < ERROR <
CRITICAL. -/
theorem C1_emission_truth_table
    (reg : Registry) (env envEmit : Env) (fs : Fs) (m : String)
    (ltf : LogToFile) (ltc : Bool) (ll : Option Nat) (ld : Option String)
    (lg : Logger)
    (hok : (setup_logging reg env fs m ltf ltc ll ld).1 = Except.ok lg)
    (S : Nat) (hS : S ∈ [DEBUG, INFO, WARNING, ERROR, CRITICAL])
    (nm msg : String) (i : Nat) (h : Handler)
    (hi : lg.handlers[i]? = some h) :
    ∃ o, (Logger.handle envEmit lg (mkRecord S nm msg))[i]? = some o ∧
      o.isSome = (decide (lg.level ≤ S) && decide (h.level ≤ S)) :=
  handle_get? envEmit lg (mkRecord S nm msg) i h hi

theorem lookup_level_map (u : String) :
    (List.lookup u level_map).getD DEFAULT_LOG_LEVEL =
      (if u = "DEBUG" then DEBUG
       else if u = "INFO" then INFO
       else if u = "WARNING" then WARNING
       else if u = "ERROR" then ERROR
       else if u = "CRITICAL" then CRITICAL
       else DEFAULT_LOG_LEVEL) := by
  by_cases h1 : u = "DEBUG"
  · subst h1; decide
  rw [if_neg h1]
  by_cases h2 : u = "INFO"
  · subst h2; decide
  rw [if_neg h2]
  by_cases h3 : u = "WARNING"
  · subst h3; decide
  rw [if_neg h3]
  by_cases h4 : u = "ERROR"
  · subst h4; decide
  rw [if_neg h4]
  by_cases h5 : u = "CRITICAL"
  · subst h5; decide
  rw [if_neg h5]
  have e1 : (u == "DEBUG") = false := beq_eq_false_iff_ne.mpr h1
  have e2 : (u == "INFO") = false := beq_eq_false_iff_ne.mpr h2
  have e3 : (u == "WARNING") = false := beq_eq_false_iff_ne.mpr h3
  have e4 : (u == "ERROR") = false := beq_eq_false_iff_ne.mpr h4
  have e5 : (u == "CRITICAL") = false := beq_eq_false_iff_ne.mpr h5
  simp [level_map, List.lookup, e1, e2, e3, e4, e5]

/-- C3: the resolved severity threshold follows the precedence debug
override > explicit argument > case-insensitive environment name > INFO
default, with unrecognized environment values silently falling back to
INFO; `resolve_level_spec` is written from the specification text. -/
theorem C3_level_precedence (reg : Registry) (env : Env) (fs : Fs)
    (m : String) (ltf : LogToFile) (ltc : Bool) (ll : Option Nat)
    (ld : Option String) (lg : Logger)
    (hok : (setup_logging reg env fs m ltf ltc ll ld).1 = Except.ok lg) :
    lg.level = resolve_level_spec (env.lfn_debug == some "1") ll env.lfn_log_level := by
  rw [setup_logging_fst] at hok
  split at hok
  · have hlg := Except.ok.inj hok
    subst hlg
    unfold plannedLogger resolve_level_spec
    by_cases hdbg : env.lfn_debug = some "1"
    · simp [hdbg]
    · have hb : (env.lfn_debug == some "1") = false := by
        simp [hdbg]
      simp only [hdbg, if_false, hb, Bool.false_eq_true]
      cases ll with
      | some l => rfl
      | none =>
        unfold resolvedLevel get_log_level_from_env
        cases hv : env.lfn_log_level with
        | none => decide
        | some s => exact lookup_level_map (strToUpper s)
  · exact absurd hok (by simp)

theorem C3_level_precedence_witness :
    ((setup_logging [] envLvl fsOk "m" LogToFile.none true Option.none
        (some "/d")).1 = Except.ok c3lg) ∧
    c3lg.level = resolve_level_spec (envLvl.lfn_debug == some "1") Option.none
        envLvl.lfn_log_level := by
  refine ⟨by decide, ?_⟩
  exact C3_level_precedence [] envLvl fsOk "m" LogToFile.none true Option.none
    (some "/d") c3lg (by decide)

/-- C10: the debug override takes effect iff LFN_DEBUG is bound to exactly
"1"; for any other value the whole configuration (logger level and every
handler level included) is the same as with LFN_DEBUG unset, and under "1"
the logger level and every handler level become DEBUG. -/
theorem C10_debug_exactly_one (reg : Registry) (env : Env) (fs : Fs)
    (m : String) (ltf : LogToFile) (ltc : Bool) (ll : Option Nat)
    (ld : Option String) (v : String) (hv : v ≠ "1") :
    (setup_logging reg { env with lfn_debug := some v } fs m ltf ltc ll ld =
      setup_logging reg { env with lfn_debug := Option.none } fs m ltf ltc ll ld) ∧
    (∀ lg, (setup_logging reg { env with lfn_debug := some "1" } fs m ltf ltc ll ld).1
        = Except.ok lg →
      lg.level = DEBUG ∧ ∀ h ∈ lg.handlers, h.level = DEBUG) := by
  constructor
  · unfold setup_logging get_log_level_from_env resolveLogDir getPyLogger
    simp [hv]
  · intro lg hok
    rw [setup_logging_fst] at hok
    split at hok
    · have hlg := Except.ok.inj hok
      subst hlg
      unfold plannedLogger
      simp only [if_pos rfl]
      constructor
      · rfl
      · intro h hmem
        rcases List.mem_map.mp hmem with ⟨a, _, ha⟩
        rw [← ha]
    · exact absurd hok (by simp)

theorem C10_debug_exactly_one_witness :
    ("true" ≠ "1") ∧
    (setup_logging [] { env0 with lfn_debug := some "true" } fsOk "m"
        (LogToFile.str "app.log") true (some INFO) (some "/d") =
      setup_logging [] { env0 with lfn_debug := Option.none } fsOk "m"
        (LogToFile.str "app.log") true (some INFO) (some "/d")) ∧
    ((setup_logging [] { env0 with lfn_debug := some "1" } fsOk "m"
        (LogToFile.str "app.log") true (some INFO) (some "/d")).1 = Except.ok c10lg) ∧
    (c10lg.level = DEBUG ∧ ∀ h ∈ c10lg.handlers, h.level = DEBUG) := by
  refine ⟨by decide, ?_, by decide, ?_⟩
  · exact (C10_debug_exactly_one [] env0 fsOk "m" (LogToFile.str "app.log")
      true (some INFO) (some "/d") "true" (by decide)).1
  · exact (C10_debug_exactly_one [] env0 fsOk "m" (LogToFile.str "app.log")
      true (some INFO) (some "/d") "true" (by decide)).2 c10lg (by decide)

/-- C6 counterexample: with a directory that cannot be created,
`setup_logging` returns the propagated `mkdir` failure instead of a usable
console-only logger — refuting the claim that setup never raises and
degrades to console-only logging. -/
theorem C6_counterexample :
    (setup_logging [] env0 fsBad "m" LogToFile.none true Option.none
        (some "/d")).1 = Except.error mkdirError := by decide

/-- C6 (amended): whenever creating the log directory fails, `setup_logging`
propagates the failure to the caller — there is no console-only fallback and
no logger is returned. -/
theorem C6_mkdir_failure_propagates (reg : Registry) (env : Env) (fs : Fs)
    (m : String) (ltf : LogToFile) (ltc : Bool) (ll : Option Nat)
    (ld : Option String)
    (hfail : fs.mkdirOk (resolveLogDir env fs ld) = false) :
    (setup_logging reg env fs m ltf ltc ll ld).1 = Except.error mkdirError := by
  rw [setup_logging_fst, hfail]
  simp

theorem C6_mkdir_failure_propagates_witness :
    (fsBad.mkdirOk (resolveLogDir env0 fsBad (some "/tmp/x")) = false) ∧
    (setup_logging [] env0 fsBad "mod" (LogToFile.bool true) true
        (some INFO) (some "/tmp/x")).1 = Except.error mkdirError :=
  ⟨by decide,
   C6_mkdir_failure_propagates [] env0 fsBad "mod" (LogToFile.bool true) true
     (some INFO) (some "/tmp/x") (by decide)⟩

theorem plannedLogger_counts (env : Env) (fs : Fs) (m : String)
    (ltf : LogToFile) (ltc : Bool) (ll : Option Nat) (ld : Option String) :
    consoleCount (plannedLogger env fs m ltf ltc ll ld).handlers ≤ 1 ∧
    fileCount (plannedLogger env fs m ltf ltc ll ld).handlers ≤ 2 := by
  unfold plannedLogger plannedHandlers consoleCount fileCount
  by_cases hdbg : env.lfn_debug = some "1" <;>
    by_cases hc : ltc <;>
      by_cases hf : ltf.truthy = true <;>
        simp [hdbg, hc, hf, isConsoleH, isFileH, List.filter]

/-- C2: re-requesting configuration for the same module name fully replaces
the sink set — the second call yields exactly the sinks a fresh call with
the second options would build (no stale sinks, no duplicates), and the
handle never holds more than one console sink and two file sinks. -/
theorem C2_reconfiguration (reg : Registry) (env : Env) (fs : Fs)
    (m : String) (o1 o2 : GLOpts) (lg2 : Logger)
    (h2 : (get_logger (get_logger reg env fs m o1).2 env fs m o2).1 = Except.ok lg2) :
    (get_logger reg env fs m o2).1 = Except.ok lg2 ∧
    consoleCount lg2.handlers ≤ 1 ∧ fileCount lg2.handlers ≤ 2 := by
  unfold get_logger at h2 ⊢
  rw [setup_logging_fst] at h2 ⊢
  refine ⟨h2, ?_⟩
  split at h2
  · have hlg := Except.ok.inj h2
    subst hlg
    exact plannedLogger_counts env fs m _ o2.log_to_console o2.log_level o2.log_dir
  · exact absurd h2 (by simp)

theorem C2_reconfiguration_witness :
    ((get_logger (get_logger [] env0 fsOk "m" o1w).2 env0 fsOk "m" o2w).1
        = Except.ok c2lg) ∧
    ((get_logger [] env0 fsOk "m" o2w).1 = Except.ok c2lg ∧
      consoleCount c2lg.handlers ≤ 1 ∧ fileCount c2lg.handlers ≤ 2) := by
  refine ⟨by decide, ?_⟩
  exact C2_reconfiguration [] env0 fsOk "m" o1w o2w c2lg (by decide)

/-- C4 counterexample: with LFN_DEBUG=1 the final loop of `setup_logging`
lowers every handler — including the errors-only file handler — to DEBUG
(10), so its minimum severity is not the claimed fixed ERROR (40) when the
debug override is asserted. -/
theorem C4_counterexample :
    (setup_logging [] envDbg fsOk "m" (LogToFile.str "app.log") true
        (some INFO) (some "/d")).1.map (fun lg => lg.handlers.map Handler.level)
      = Except.ok [DEBUG, DEBUG, DEBUG] := by decide

/-- C4 (amended): whenever the debug override is NOT asserted, the
errors-only file sink (the last attached handler) has minimum severity
ERROR whatever the general threshold of the logger; and with logger threshold
INFO, emitting one INFO and one ERROR record puts both lines in the general
file and only the ERROR line in the errors-only file. -/
theorem C4_errors_only_threshold (reg : Registry) (env : Env) (fs : Fs)
    (m : String) (ltf : LogToFile) (ltc : Bool) (ll : Option Nat)
    (ld : Option String) (lg : Logger)
    (hdbg : env.lfn_debug ≠ some "1") (htr : ltf.truthy = true)
    (hok : (setup_logging reg env fs m ltf ltc ll ld).1 = Except.ok lg) :
    ((lg.handlers.map Handler.level).getLast? = some ERROR) ∧
    ((setup_logging [] env0 fsOk "mod" (LogToFile.str "app.log") false
        (some INFO) (some "/d")).1.map
      (fun l2 =>
        let outs := Logger.handle env0 l2 (mkRecord INFO "mod" "one") ++
                    Logger.handle env0 l2 (mkRecord ERROR "mod" "two")
        ((outputsTo outs (Dest.file "/d/app.log")).length,
         (outputsTo outs (Dest.file "/d/app_error.log")).length))
      = Except.ok (2, 1)) := by
  refine ⟨?_, by decide⟩
  rw [setup_logging_fst] at hok
  split at hok
  · have hlg := Except.ok.inj hok
    subst hlg
    unfold plannedLogger plannedHandlers
    simp only [hdbg, if_false, htr, if_true, List.map_append, List.map_cons,
      List.map_nil]
    rw [List.getLast?_append_cons]
    rfl
  · exact absurd hok (by simp)

theorem C4_errors_only_threshold_witness :
    (env0.lfn_debug ≠ some "1") ∧
    ((LogToFile.str "app.log").truthy = true) ∧
    ((setup_logging [] env0 fsOk "m" (LogToFile.str "app.log") false
        (some INFO) (some "/d")).1 = Except.ok c4lg) ∧
    ((c4lg.handlers.map Handler.level).getLast? = some ERROR) := by
  refine ⟨by decide, by decide, by decide, ?_⟩
  exact (C4_errors_only_threshold [] env0 fsOk "m" (LogToFile.str "app.log")
    false (some INFO) (some "/d") c4lg (by decide) (by decide) (by decide)).1

/-- C5: the claim that file sinks never receive ANSI color escapes is
violated by the code: `ColoredFormatter.format` mutates `record.levelname`
in place, the console handler formats first, and the file handlers then
format the same mutated record, so the escape character reaches the general
log file whenever a console handler with color is attached (first
conjunct); with the console handler absent the file line is clean (second
conjunct), pinning the mutation as the cause. -/
theorem C5_escape_leaks_to_file :
    ((setup_logging [] env0 fsOk "m" (LogToFile.str "app.log") true
        (some INFO) (some "/d")).1.map
      (fun lg => (outputsTo (Logger.handle env0 lg (mkRecord INFO "m" "hello"))
          (Dest.file "/d/app.log")).any
        (fun line => line.data.any (fun c => c == '\x1b')))
      = Except.ok true) ∧
    ((setup_logging [] env0 fsOk "m" (LogToFile.str "app.log") false
        (some INFO) (some "/d")).1.map
      (fun lg => (outputsTo (Logger.handle env0 lg (mkRecord INFO "m" "hello"))
          (Dest.file "/d/app.log")).any
        (fun line => line.data.any (fun c => c == '\x1b')))
      = Except.ok false) := by decide

theorem strDataAppend (a b : String) : (a ++ b).data = a.data ++ b.data := by
  cases a; cases b; rfl

theorem strEqOfData (a b : String) (h : a.data = b.data) : a = b := by
  cases a; cases b
  exact congrArg String.mk h

/-- Sanitized module names contain no dot. -/
theorem replaceDots_no_dot (l : List Char) : '.' ∉ replaceDots l := by
  unfold replaceDots
  intro h
  rcases List.mem_map.mp h with ⟨a, _, ha⟩
  by_cases h1 : a = '.'
  · rw [if_pos h1] at ha
    exact absurd ha (by decide)
  · rw [if_neg h1] at ha
    exact h1 ha

/-- Unfolding equation of `replaceDotLog` at a head that is not a dot. -/
theorem replaceDotLog_cons_ne (c : Char) (t : List Char) (hc : c ≠ '.') :
    replaceDotLog (c :: t) = c :: replaceDotLog t := by
  unfold replaceDotLog
  split
  next heq => simp at heq
  next rest heq =>
    injection heq with h1 _
    exact absurd h1 hc
  next c2 rest hno heq =>
    injection heq with h1 h2
    subst h1; subst h2
    rw [← replaceDotLog.eq_def]

/-- On a name whose only ".log" occurrence is its final extension, the
replacement inserts "_error" before the extension. -/
theorem replaceDotLog_append (l : List Char) (hl : '.' ∉ l) :
    replaceDotLog (l ++ ".log".data) = l ++ "_error.log".data := by
  induction l with
  | nil => decide
  | cons c t ih =>
    have hc : c ≠ '.' := by
      intro h
      exact hl (by simp [h])
    have ht : '.' ∉ t := fun h => hl (List.mem_cons_of_mem _ h)
    rw [List.cons_append, replaceDotLog_cons_ne c _ hc, ih ht, List.cons_append]

/-- For an auto-generated file name `lfn_<module>.log` the errors-only name
is `lfn_<module>_error.log`. -/
theorem strReplaceDotLog_auto (m : String) :
    strReplaceDotLog ("lfn_" ++ safeModule m ++ ".log") =
      "lfn_" ++ safeModule m ++ "_error.log" := by
  apply strEqOfData
  unfold strReplaceDotLog
  have hl : '.' ∉ ("lfn_".data ++ (safeModule m).data) := by
    intro h
    rcases List.mem_append.mp h with h | h
    · exact absurd h (by decide)
    · exact replaceDots_no_dot m.data h
  show replaceDotLog (("lfn_" ++ (safeModule m ++ ".log")).data) =
    ("lfn_" ++ (safeModule m ++ "_error.log")).data
  rw [strDataAppend, strDataAppend, strDataAppend, strDataAppend,
    ← List.append_assoc, ← List.append_assoc, replaceDotLog_append _ hl,
    List.append_assoc]

/-- C7 counterexample: a caller-supplied general file name with no ".log"
substring ("audit.txt") yields an errors-only path identical to the general
path ("/d/audit.txt"), not the "audit_error.txt" that the claimed
insert-before-the-extension rule requires. -/
theorem C7_counterexample :
    (setup_logging [] env0 fsOk "m" (LogToFile.str "audit.txt") false
        (some INFO) (some "/d")).1.map (fun lg => lg.handlers.map Handler.dest)
      = Except.ok [Dest.file "/d/audit.txt", Dest.file "/d/audit.txt"] := by
  decide

/-- C7 (amended): the errors-only file name is the general name with every
occurrence of the substring ".log" replaced by "_error.log", in the same
directory.  For auto-generated names `lfn_<module>.log` (whose sanitized
module part contains no dot) this coincides with inserting "_error" before
the extension, for every module name; a caller-supplied name without a
".log" substring is left unchanged, so its errors-only path equals the
general path. -/
theorem C7_error_file_name (reg : Registry) (env : Env) (fs : Fs)
    (m fn : String) (ltc : Bool) (ll : Option Nat) (d : String)
    (lg lgA : Logger) (hfn : fn ≠ "")
    (hok : (setup_logging reg env fs m (LogToFile.str fn) ltc ll
        (some d)).1 = Except.ok lg)
    (hokA : (setup_logging reg env fs m (LogToFile.bool true) ltc ll
        (some d)).1 = Except.ok lgA) :
    ((lg.handlers.map Handler.dest).getLast? =
      some (Dest.file (pathJoin d (strReplaceDotLog fn)))) ∧
    ((lgA.handlers.map Handler.dest).getLast? =
      some (Dest.file (pathJoin d ("lfn_" ++ safeModule m ++ "_error.log")))) := by
  constructor
  · rw [setup_logging_fst] at hok
    split at hok
    · have hlg := Except.ok.inj hok
      subst hlg
      have htr : (LogToFile.str fn).truthy = true := by
        simp [LogToFile.truthy, hfn]
      unfold plannedLogger plannedHandlers
      by_cases hdbg : env.lfn_debug = some "1" <;>
        simp only [hdbg, if_true, if_false, htr, List.map_map, List.map_append,
          List.map_cons, List.map_nil, Function.comp] <;>
        · rw [List.getLast?_append_cons]
          rfl
    · exact absurd hok (by simp)
  · rw [setup_logging_fst] at hokA
    split at hokA
    · have hlg := Except.ok.inj hokA
      subst hlg
      unfold plannedLogger plannedHandlers
      by_cases hdbg : env.lfn_debug = some "1" <;>
        simp only [hdbg, if_true, if_false, LogToFile.truthy, List.map_map,
          List.map_append, List.map_cons, List.map_nil, Function.comp] <;>
        · rw [List.getLast?_append_cons]
          show some (Dest.file (pathJoin (resolveLogDir env fs (some d))
            (strReplaceDotLog ("lfn_" ++ safeModule m ++ ".log")))) = _
          rw [strReplaceDotLog_auto]
          rfl
    · exact absurd hokA (by simp)

theorem C7_error_file_name_witness :
    ("audit.txt" ≠ "") ∧
    ((setup_logging [] env0 fsOk "m" (LogToFile.str "audit.txt") false
        (some INFO) (some "/d")).1 = Except.ok c7lgS) ∧
    ((setup_logging [] env0 fsOk "m" (LogToFile.bool true) false
        (some INFO) (some "/d")).1 = Except.ok c7lgA) ∧
    ((c7lgS.handlers.map Handler.dest).getLast? =
      some (Dest.file (pathJoin "/d" (strReplaceDotLog "audit.txt")))) ∧
    ((c7lgA.handlers.map Handler.dest).getLast? =
      some (Dest.file (pathJoin "/d" ("lfn_" ++ safeModule "m" ++ "_error.log")))) := by
  refine ⟨by decide, by decide, by decide, ?_, ?_⟩
  · exact (C7_error_file_name [] env0 fsOk "m" "audit.txt" false (some INFO)
      "/d" c7lgS c7lgA (by decide) (by decide) (by decide)).1
  · exact (C7_error_file_name [] env0 fsOk "m" "audit.txt" false (some INFO)
      "/d" c7lgS c7lgA (by decide) (by decide) (by decide)).2

/-- C8: the wrapper built by `log_function_call` returns exactly the wrapped
result of the wrapped operation; on failure it logs the type and message of
the exception at
ERROR severity and re-raises the same exception unchanged (the returned
`Except` is the one of the wrapped call, error included). -/
theorem C8_wrapper_transparent {α β : Type} (level : Nat) (funcName : String)
    (reprSig : α → String) (reprRes : β → String)
    (func : α → Except PyExc β) (arg : α) :
    ((log_function_call level funcName reprSig reprRes func arg).1 = func arg) ∧
    (∀ e, func arg = Except.error e →
      (ERROR, funcName ++ " raised " ++ e.typeName ++ ": " ++ e.msg)
        ∈ (log_function_call level funcName reprSig reprRes func arg).2) := by
  unfold log_function_call
  cases hf : func arg with
  | ok r =>
    refine ⟨rfl, ?_⟩
    intro e he
    exact absurd he (by simp)
  | error e =>
    refine ⟨rfl, ?_⟩
    intro e2 he
    have he2 := Except.error.inj he
    subst he2
    simp

theorem C8_wrapper_transparent_witness :
    ((log_function_call DEBUG "f" toString toString c8func 3).1 = c8func 3) ∧
    ((ERROR, "f raised ValueError: bad")
      ∈ (log_function_call DEBUG "f" toString toString c8func 3).2) := by
  refine ⟨(C8_wrapper_transparent DEBUG "f" toString toString c8func 3).1, ?_⟩
  exact (C8_wrapper_transparent DEBUG "f" toString toString c8func 3).2
    ⟨"ValueError", "bad"⟩ rfl

theorem strAppend_left_cancel (a b c : String) (h : a ++ b = a ++ c) :
    b = c := by
  apply strEqOfData
  have h2 := congrArg String.data h
  rw [strDataAppend, strDataAppend] at h2
  exact List.append_cancel_left h2

theorem strAppend_right_cancel (a b c : String) (h : a ++ c = b ++ c) :
    a = b := by
  apply strEqOfData
  have h2 := congrArg String.data h
  rw [strDataAppend, strDataAppend] at h2
  exact List.append_cancel_right h2

theorem strAppend_no_slash (a b : String) (ha : '/' ∉ a.data)
    (hb : '/' ∉ b.data) : '/' ∉ (a ++ b).data := by
  rw [strDataAppend]
  intro h
  rcases List.mem_append.mp h with h | h
  · exact ha h
  · exact hb h

/-- Unfolding equation of `splitSlashAux` at a head that is not a slash. -/
theorem splitSlashAux_cons_ne (c : Char) (t acc : List Char) (hc : c ≠ '/') :
    splitSlashAux (c :: t) acc = splitSlashAux t (c :: acc) := by
  unfold splitSlashAux
  split
  next heq => simp at heq
  next rest heq =>
    injection heq with h1 _
    exact absurd h1 hc
  next c2 rest hno heq =>
    injection heq with h1 h2
    subst h1; subst h2
    rw [← splitSlashAux.eq_def]

/-- A slash-free character list is a single path segment. -/
theorem splitSlashAux_no_slash (l : List Char) (hl : '/' ∉ l) :
    ∀ acc, splitSlashAux l acc = [acc.reverse ++ l] := by
  induction l with
  | nil => intro acc; simp [splitSlashAux]
  | cons c t ih =>
    intro acc
    have hc : c ≠ '/' := by
      intro h
      exact hl (by simp [h])
    have ht : '/' ∉ t := fun h => hl (List.mem_cons_of_mem _ h)
    rw [splitSlashAux_cons_ne c t acc hc, ih ht (c :: acc)]
    simp

/-- A nonempty slash-free segment other than "." is its own component
list. -/
theorem posixComps_single (l : List Char) (h0 : '/' ∉ l) (h1 : l ≠ [])
    (h2 : l ≠ ['.']) : posixComps l = [l] := by
  unfold posixComps
  rw [splitSlashAux_no_slash l h0 []]
  simp [keepComp, h1, h2]

theorem renderComps_single (c : List Char) : renderComps [c] = c := rfl

theorem renderComps_cons_ne_nil (c : List Char) (rest : List (List Char))
    (h : rest ≠ []) :
    renderComps (c :: rest) = c ++ '/' :: renderComps rest := by
  cases rest with
  | nil => exact absurd rfl h
  | cons r t => rfl

/-- Rendering is injective in a final single component appended to a shared
prefix of components. -/
theorem renderComps_snoc_inj (C : List (List Char)) (a b : List Char)
    (h : renderComps (C ++ [a]) = renderComps (C ++ [b])) : a = b := by
  induction C with
  | nil =>
    rw [List.nil_append, List.nil_append, renderComps_single,
      renderComps_single] at h
    exact h
  | cons c C ih =>
    rw [List.cons_append, List.cons_append,
      renderComps_cons_ne_nil c _ (by simp),
      renderComps_cons_ne_nil c _ (by simp)] at h
    have h2 := List.append_cancel_left h
    exact ih (List.cons.inj h2).2

theorem renderPosix_ne_nil (r : List Char) (comps : List (List Char))
    (h : comps ≠ []) :
    renderPosix r comps = String.mk (r ++ renderComps comps) := by
  cases r <;> cases comps <;> first | rfl | exact absurd rfl h

theorem digitChar_ne_slash (d : Nat) (hd : d < 10) : digitChar d ≠ '/' := by
  interval_cases d <;> decide

theorem natDecAux_no_slash (fuel : Nat) : ∀ n, '/' ∉ natDecAux fuel n := by
  induction fuel with
  | zero => intro n; simp [natDecAux]
  | succ f ih =>
    intro n
    unfold natDecAux
    split
    next hlt =>
      intro hmem
      simp only [List.mem_singleton] at hmem
      exact digitChar_ne_slash n hlt hmem.symm
    next hge =>
      intro hmem
      rcases List.mem_append.mp hmem with h | h
      · exact ih (n / 10) h
      · simp only [List.mem_singleton] at h
        exact digitChar_ne_slash (n % 10) (Nat.mod_lt n (by decide)) h.symm

theorem natDec_no_slash (n : Nat) : '/' ∉ (natDec n).data :=
  natDecAux_no_slash (n + 1) n

theorem pad2_no_slash (n : Nat) : '/' ∉ (pad2 n).data := by
  unfold pad2
  split
  · exact strAppend_no_slash "0" (natDec n) (by decide) (natDec_no_slash n)
  · exact natDec_no_slash n

theorem pad4_no_slash (n : Nat) : '/' ∉ (pad4 n).data := by
  unfold pad4
  split
  · exact strAppend_no_slash "000" (natDec n) (by decide) (natDec_no_slash n)
  · split
    · exact strAppend_no_slash "00" (natDec n) (by decide) (natDec_no_slash n)
    · split
      · exact strAppend_no_slash "0" (natDec n) (by decide) (natDec_no_slash n)
      · exact natDec_no_slash n

/-- The strftime timestamp contains no slash. -/
theorem strftime_no_slash (t : PyDateTime) : '/' ∉ (strftime_ts t).data := by
  unfold strftime_ts
  apply strAppend_no_slash
  apply strAppend_no_slash
  apply strAppend_no_slash
  apply strAppend_no_slash
  apply strAppend_no_slash
  apply strAppend_no_slash
  exacts [pad4_no_slash t.year, pad2_no_slash t.month, pad2_no_slash t.day,
    by decide, pad2_no_slash t.hour, pad2_no_slash t.minute,
    pad2_no_slash t.second]

theorem slash_head_mem (l : List Char) (h : l.head? = some '/') :
    '/' ∈ l := by
  cases l with
  | nil => exact absurd h (by simp)
  | cons c t =>
    have hc : c = '/' := by simpa using h
    subst hc
    exact List.mem_cons_self _ _

/-- C9 counterexample: distinct session labels can yield the same path: an
absolute label makes the composed file name absolute so `pathlib` discards
the directory operand, and `pathlib` normalization merges labels that differ
only in spurious slash components. -/
theorem C9_counterexample :
    ((create_session_log fsOk t0 "/d/x" (some "/d") =
        create_session_log fsOk t0 "x" (some "/d")) ∧
      (("/d/x" : String) ≠ "x")) ∧
    ((create_session_log fsOk t0 "b//x" (some "/d") =
        create_session_log fsOk t0 "b/x" (some "/d")) ∧
      (("b//x" : String) ≠ "b/x")) := by decide

/-- C9 (amended): two calls in the same wall-clock second with the same
label and directory return identical results; two calls with different
labels (same time and directory) return distinct paths provided neither
label contains a slash (a slash introduces extra path components: an
absolute label discards the directory operand, and normalization merges
labels differing only in spurious slash or dot components); and the only
filesystem effect is the idempotent directory creation — the returned log
file is never created or opened. -/
theorem C9_session_paths (fs : Fs) (t1 t2 : PyDateTime) (l1 l2 : String)
    (d : Option String)
    (hsec : sameSecond t1 t2 = true) (hne : l1 ≠ l2)
    (h1 : '/' ∉ l1.data) (h2 : '/' ∉ l2.data) :
    (create_session_log fs t1 l1 d = create_session_log fs t2 l1 d) ∧
    (∀ e1 p1 e2 p2,
      create_session_log fs t1 l1 d = Except.ok (e1, p1) →
      create_session_log fs t1 l2 d = Except.ok (e2, p2) →
      p1 ≠ p2 ∧ e1.all FsEffect.isMkdir = true ∧ e2.all FsEffect.isMkdir = true) := by
  have hts : strftime_ts t1 = strftime_ts t2 := by
    unfold sameSecond at hsec
    simp only [Bool.and_eq_true, beq_iff_eq] at hsec
    obtain ⟨⟨⟨⟨⟨hy, hmo⟩, hd⟩, hh⟩, hmi⟩, hs⟩ := hsec
    unfold strftime_ts
    rw [hy, hmo, hd, hh, hmi, hs]
  constructor
  · unfold create_session_log
    rw [hts]
  · intro e1 p1 e2 p2 hp1 hp2
    unfold create_session_log at hp1 hp2
    split at hp1
    next hmk =>
      rw [if_pos hmk] at hp2
      simp only [Except.ok.injEq, Prod.mk.injEq] at hp1 hp2
      obtain ⟨he1, hq1⟩ := hp1
      obtain ⟨he2, hq2⟩ := hp2
      subst he1; subst he2; subst hq1; subst hq2
      have hf1 : '/' ∉ (l1 ++ "_" ++ strftime_ts t1 ++ ".log").data := by
        apply strAppend_no_slash
        apply strAppend_no_slash
        apply strAppend_no_slash
        exacts [h1, by decide, strftime_no_slash t1, by decide]
      have hf2 : '/' ∉ (l2 ++ "_" ++ strftime_ts t1 ++ ".log").data := by
        apply strAppend_no_slash
        apply strAppend_no_slash
        apply strAppend_no_slash
        exacts [h2, by decide, strftime_no_slash t1, by decide]
      have hlen1 : (l1 ++ "_" ++ strftime_ts t1 ++ ".log").data.length
          = (l1 ++ "_" ++ strftime_ts t1).data.length + 4 := by
        rw [strDataAppend]
        simp
        omega
      have hlen2 : (l2 ++ "_" ++ strftime_ts t1 ++ ".log").data.length
          = (l2 ++ "_" ++ strftime_ts t1).data.length + 4 := by
        rw [strDataAppend]
        simp
        omega
      have hne1 : (l1 ++ "_" ++ strftime_ts t1 ++ ".log").data ≠ [] := by
        intro h
        rw [h] at hlen1
        simp only [List.length_nil] at hlen1
        omega
      have hne2 : (l2 ++ "_" ++ strftime_ts t1 ++ ".log").data ≠ [] := by
        intro h
        rw [h] at hlen2
        simp only [List.length_nil] at hlen2
        omega
      have hnd1 : (l1 ++ "_" ++ strftime_ts t1 ++ ".log").data ≠ ['.'] := by
        intro h
        rw [h] at hlen1
        simp only [List.length_cons, List.length_nil] at hlen1
        omega
      have hnd2 : (l2 ++ "_" ++ strftime_ts t1 ++ ".log").data ≠ ['.'] := by
        intro h
        rw [h] at hlen2
        simp only [List.length_cons, List.length_nil] at hlen2
        omega
      have hh1 : (l1 ++ "_" ++ strftime_ts t1 ++ ".log").data.head?
          ≠ some '/' := by
        intro hh
        exact hf1 (slash_head_mem _ hh)
      have hh2 : (l2 ++ "_" ++ strftime_ts t1 ++ ".log").data.head?
          ≠ some '/' := by
        intro hh
        exact hf2 (slash_head_mem _ hh)
      refine ⟨?_, rfl, rfl⟩
      intro heq
      unfold pathJoin at heq
      rw [if_neg hh1, if_neg hh2] at heq
      rw [posixComps_single _ hf1 hne1 hnd1,
        posixComps_single _ hf2 hne2 hnd2] at heq
      rw [renderPosix_ne_nil _ _ (by simp),
        renderPosix_ne_nil _ _ (by simp)] at heq
      have heq2 := congrArg String.data heq
      have h3 := List.append_cancel_left heq2
      have h4 := renderComps_snoc_inj _ _ _ h3
      have h5 := strEqOfData _ _ h4
      have h6 := strAppend_right_cancel _ _ _ h5
      have h7 := strAppend_right_cancel _ _ _ h6
      exact hne (strAppend_right_cancel _ _ _ h7)
    next hmk =>
      exact absurd hp1 (by simp)

theorem C9_session_paths_witness :
    (sameSecond t0 t0b = true) ∧ (("batch_analysis" : String) ≠ "other") ∧
    ('/' ∉ "batch_analysis".data) ∧
    ('/' ∉ "other".data) ∧
    (create_session_log fsOk t0 "batch_analysis" (some "/d") =
      create_session_log fsOk t0b "batch_analysis" (some "/d")) ∧
    (("/d/batch_analysis_20250102_030405.log" : String)
        ≠ "/d/other_20250102_030405.log" ∧
      [FsEffect.mkdirP "/d"].all FsEffect.isMkdir = true ∧
      [FsEffect.mkdirP "/d"].all FsEffect.isMkdir = true) := by
  refine ⟨by decide, by decide, by decide, by decide, ?_, ?_⟩
  · exact (C9_session_paths fsOk t0 t0b "batch_analysis" "other" (some "/d")
      (by decide) (by decide) (by decide) (by decide)).1
  · exact (C9_session_paths fsOk t0 t0b "batch_analysis" "other" (some "/d")
      (by decide) (by decide) (by decide) (by decide)).2
      [FsEffect.mkdirP "/d"] "/d/batch_analysis_20250102_030405.log"
      [FsEffect.mkdirP "/d"] "/d/other_20250102_030405.log"
      (by decide) (by decide)

theorem C1_emission_truth_table_witness :
    ((setup_logging [] env0 fsOk "m" (LogToFile.str "app.log") true
        (some INFO) (some "/d")).1 = Except.ok c1lg) ∧
    (INFO ∈ [DEBUG, INFO, WARNING, ERROR, CRITICAL]) ∧
    (c1lg.handlers[2]? =
      some ⟨Dest.file "/d/app_error.log", ERROR, FormatterKind.detailed⟩) ∧
    (∃ o, (Logger.handle env0 c1lg (mkRecord INFO "m" "x"))[2]? = some o ∧
      o.isSome = (decide (c1lg.level ≤ INFO) && decide (ERROR ≤ INFO))) := by
  refine ⟨by decide, by decide, by decide, ?_⟩
  exact C1_emission_truth_table [] env0 env0 fsOk "m" (LogToFile.str "app.log")
    true (some INFO) (some "/d") c1lg (by decide) INFO (by decide) "m" "x" 2
    ⟨Dest.file "/d/app_error.log", ERROR, FormatterKind.detailed⟩ (by decide)

end LFN
